import Mathlib

/-!
Shallow embedding of the deep-research pipeline of this repository
(`2_openai/deep_research/research_manager.py` and its structurally identical
variant `training/deep_search/research_manager.py`), together with the
planner data model (`training/deep_search/planner_agent.py`), the writer
data model (`training/deep_search/writer_agent.py`) and the notification
tool (`training/deep_search/email_agent.py`).

External LLM/HTTP boundaries (`Runner.run` on each agent, the SendGrid
`post`) are modelled as oracle functions returning `Except String α`:
`Except.error e` models the external call raising exception `e`,
`Except.ok v` models it returning `v`.  The async generator
`ResearchManager.run` is modelled as the trace of events it produces:
each `yield` of the generator, each external call it issues, and the
propagation of an uncaught exception.  The nondeterministic completion
order of `asyncio.as_completed` is modelled by a `reorder` parameter that
permutes the list of submitted work items; theorems that depend on the
batch carry the hypothesis that `reorder` produces a permutation.
-/

namespace DeepResearch

/-- `WebSearchItem` from `planner_agent.py`: one planned search with its
rationale. -/
structure WebSearchItem where
  reason : String
  query : String
deriving DecidableEq

/-- `WebSearchPlan` from `planner_agent.py`: the list of planned searches.
The pydantic model places no constraint on the length of `searches`. -/
structure WebSearchPlan where
  searches : List WebSearchItem
deriving DecidableEq

/-- `ReportData` from `writer_agent.py`: the synthesized artifact. -/
structure ReportData where
  short_summary : String
  markdown_report : String
  follow_up_questions : List String
deriving DecidableEq

/-- The instruction string `ResearchManager.search` builds for one item:
`f"Search term: {item.query}\nReason for searching: {item.reason}"`. -/
def searchInput (item : WebSearchItem) : String :=
  "Search term: " ++ item.query ++ "\n" ++ "Reason for searching: " ++ item.reason

/-- The external boundaries of the pipeline.  `planner` models
`Runner.run(planner_agent, ...)` followed by `final_output_as(WebSearchPlan)`;
`searcher` models `Runner.run(search_agent, ...)` returning
`str(result.final_output)`; `writer` models `Runner.run(writer_agent, ...)`
on the query and the aggregated search results (the code formats both into
one prompt string) followed by `final_output_as(ReportData)`; `emailer`
models `Runner.run(email_agent, report.markdown_report)`. -/
structure Env where
  planner : String → Except String WebSearchPlan
  searcher : String → Except String String
  writer : String → List String → Except String ReportData
  emailer : String → Except String Unit

/-- `ResearchManager.search`: run the unit of work; on success return the
text, on any exception return `None` (modelled as `none`). -/
def search (searcher : String → Except String String) (item : WebSearchItem) :
    Option String :=
  match searcher (searchInput item) with
  | Except.ok r => some r
  | Except.error _ => none

/-- `ResearchManager.perform_searches`, data part: the loop over
`asyncio.as_completed(tasks)` appends each non-`None` result, in completion
order.  `completed` is the list of submitted items in completion order
(a permutation of `plan.searches` in every theorem that uses a plan). -/
def perform_searches (searcher : String → Except String String)
    (completed : List WebSearchItem) : List String :=
  (completed.map (search searcher)).filterMap id

/-- `ResearchManager.plan_searches`: calls the planner on
`f"Query: {query}"` and returns its structured output unchanged; an
exception from the external call propagates (there is no `try` block and
no validation of the returned plan). -/
def plan_searches (planner : String → Except String WebSearchPlan)
    (query : String) : Except String WebSearchPlan :=
  planner ("Query: " ++ query)

/-- One external call site of the pipeline, as recorded in the trace. -/
inductive ExtCall where
  | planCall (input : String)
  | searchCall (input : String)
  | writeCall (query : String) (search_results : List String)
  | emailCall (markdown : String)
deriving DecidableEq

/-- One observable event of the async generator `ResearchManager.run`:
a `yield`, an external call being issued, or an uncaught exception
propagating to the consumer (which closes the stream). -/
inductive TraceEv where
  | yieldEv (s : String)
  | callEv (c : ExtCall)
  | raiseEv (e : String)
deriving DecidableEq

/-- The first yielded string of `run`:
`f"View trace: https://platform.openai.com/traces/trace?trace_id={trace_id}"`. -/
def traceUrl (traceId : String) : String :=
  "View trace: https://platform.openai.com/traces/trace?trace_id=" ++ traceId

/-- The fan-out call events of the Searching stage, one per submitted item,
in completion order. -/
def searchCallEvents (completed : List WebSearchItem) : List TraceEv :=
  completed.map (fun it => TraceEv.callEv (ExtCall.searchCall (searchInput it)))

/-- The tail of the generator after `write_report` is called: on a writer
exception the generator raises; otherwise it yields, calls the emailer on
`report.markdown_report` (raising on failure), yields, and finally yields
the markdown report itself. -/
def afterWrite (env : Env) (query : String) (results : List String) :
    List TraceEv :=
  match env.writer query results with
  | Except.error e => [TraceEv.raiseEv e]
  | Except.ok report =>
    TraceEv.yieldEv "Report written, sending email..." ::
    TraceEv.callEv (ExtCall.emailCall report.markdown_report) ::
    match env.emailer report.markdown_report with
    | Except.error e => [TraceEv.raiseEv e]
    | Except.ok _ =>
      [TraceEv.yieldEv "Email sent, research complete",
       TraceEv.yieldEv report.markdown_report]

/-- The event trace of the async generator `ResearchManager.run` of
`2_openai/deep_research/research_manager.py`: yield the trace URL, call the
planner (raise on failure), yield, fan out one search call per item and
collect successes, yield, call the writer, and continue as `afterWrite`.
`reorder` is the completion order chosen by the scheduler. -/
def runTr (env : Env) (reorder : List WebSearchItem → List WebSearchItem)
    (query traceId : String) : List TraceEv :=
  TraceEv.yieldEv (traceUrl traceId) ::
  TraceEv.callEv (ExtCall.planCall ("Query: " ++ query)) ::
  match plan_searches env.planner query with
  | Except.error e => [TraceEv.raiseEv e]
  | Except.ok plan =>
    let completed := reorder plan.searches
    let results := perform_searches env.searcher completed
    TraceEv.yieldEv "Searches planned, starting to search..." ::
    searchCallEvents completed ++
    TraceEv.yieldEv "Searches complete, writing report..." ::
    TraceEv.callEv (ExtCall.writeCall query results) ::
    afterWrite env query results

/-- Project a trace event to the string it yields, if any. -/
def yieldedOf : TraceEv → Option String
  | TraceEv.yieldEv s => some s
  | _ => none

/-- The progress stream a consumer of the generator observes: the yielded
strings of the trace, in order. -/
def runYields (env : Env) (reorder : List WebSearchItem → List WebSearchItem)
    (query traceId : String) : List String :=
  (runTr env reorder query traceId).filterMap yieldedOf

/-- Whether a trace event is a propagating exception. -/
def isRaise : TraceEv → Bool
  | TraceEv.raiseEv _ => true
  | _ => false

/-- Whether a trace event is a unit-of-work (search) call. -/
def isSearchCall : TraceEv → Bool
  | TraceEv.callEv (ExtCall.searchCall _) => true
  | _ => false

/-- The mail value built by `send_mail` in `email_agent.py` before posting. -/
structure MailData where
  from_email : String
  to_email : String
  subject : String
  content_type : String
  body : String
deriving DecidableEq

/-- The HTTP response of the SendGrid post, as far as `send_mail` could
observe it (it does not). -/
structure HttpResponse where
  status_code : Nat
  body : String
deriving DecidableEq

/-- The `Mail(from_email, to_email, subject, content)` value `send_mail`
builds: fixed sender and recipient, HTML content type. -/
def buildMail (subject html_body : String) : MailData :=
  MailData.mk "federico.tognettigmail.com" "federico.tognetti@gmail.com"
    subject "text/html" html_body

/-- `send_mail` from `email_agent.py`: build the mail, post it through the
SendGrid client (an exception propagates, there is no `try` block), bind the
response to a variable that is never inspected, and return
`{"status": "success"}` unconditionally. -/
def send_mail (post : MailData → Except String HttpResponse)
    (subject html_body : String) : Except String (List (String × String)) :=
  match post (buildMail subject html_body) with
  | Except.error e => Except.error e
  | Except.ok _ => Except.ok [("status", "success")]

/-! Concrete fixtures used by witnesses and counterexamples. -/

/-- A concrete work item. -/
def itemA : WebSearchItem := WebSearchItem.mk "reasonA" "queryA"

/-- A concrete work item. -/
def itemB : WebSearchItem := WebSearchItem.mk "reasonB" "queryB"

/-- A concrete work item. -/
def itemC : WebSearchItem := WebSearchItem.mk "reasonC" "queryC"

/-- A concrete three-item plan, matching the repository convention of three
searches per query. -/
def planABC : WebSearchPlan := WebSearchPlan.mk [itemA, itemB, itemC]

/-- A concrete synthesized report. -/
def reportOk : ReportData :=
  ReportData.mk "short summary" "the final markdown report" ["follow up"]

/-- A searcher oracle that always succeeds. -/
def okSearcher : String → Except String String :=
  fun s => Except.ok ("summary of " ++ s)

/-- A searcher oracle that always raises. -/
def failSearcher : String → Except String String :=
  fun _ => Except.error "search boom"

/-- A searcher oracle that raises exactly on the instruction built from
`itemB` and succeeds elsewhere. -/
def mixedSearcher : String → Except String String :=
  fun s => if s = searchInput itemB then Except.error "search boom"
           else Except.ok ("summary of " ++ s)

/-- An environment in which every external call succeeds. -/
def envOk : Env :=
  Env.mk (fun _ => Except.ok planABC) okSearcher
    (fun _ _ => Except.ok reportOk) (fun _ => Except.ok ())

/-- An environment whose planning call raises. -/
def envPlanFail : Env :=
  Env.mk (fun _ => Except.error "planner boom") okSearcher
    (fun _ _ => Except.ok reportOk) (fun _ => Except.ok ())

/-- An environment in which every unit of work raises. -/
def envAllSearchFail : Env :=
  Env.mk (fun _ => Except.ok planABC) failSearcher
    (fun _ _ => Except.ok reportOk) (fun _ => Except.ok ())

/-- An environment whose notification call raises, all earlier calls
succeeding. -/
def envEmailFail : Env :=
  Env.mk (fun _ => Except.ok planABC) okSearcher
    (fun _ _ => Except.ok reportOk) (fun _ => Except.error "sendgrid boom")

end DeepResearch

namespace DeepResearch

/-! Helper lemmas shared by the claim theorems. -/

theorem length_filterMap_id {α : Type} (l : List (Option α)) :
    (l.filterMap id).length = l.countP (fun o => o.isSome) := by
  induction l with
  | nil => rfl
  | cons a t ih =>
    cases a <;> simp [List.filterMap_cons, List.countP_cons, ih]

theorem searchCallEvents_countP_isSearchCall (l : List WebSearchItem) :
    (searchCallEvents l).countP isSearchCall = l.length := by
  induction l with
  | nil => rfl
  | cons a t ih =>
    simp [searchCallEvents, List.countP_cons, isSearchCall, ih]

theorem searchCallEvents_countP_isRaise (l : List WebSearchItem) :
    (searchCallEvents l).countP isRaise = 0 := by
  induction l with
  | nil => rfl
  | cons a t ih =>
    simp [searchCallEvents, List.countP_cons, isRaise, ih]

theorem searchCallEvents_filterMap_yieldedOf (l : List WebSearchItem) :
    (searchCallEvents l).filterMap yieldedOf = [] := by
  induction l with
  | nil => rfl
  | cons a t ih =>
    simp [searchCallEvents, List.filterMap_cons, yieldedOf, ih]

theorem afterWrite_countP_isSearchCall (env : Env) (query : String)
    (results : List String) :
    (afterWrite env query results).countP isSearchCall = 0 := by
  unfold afterWrite
  cases hw : env.writer query results with
  | error e => rfl
  | ok report =>
    cases he : env.emailer report.markdown_report with
    | error e => simp [List.countP_cons, isSearchCall, he]
    | ok u => simp [List.countP_cons, isSearchCall, he]

theorem perform_searches_all_none (searcher : String → Except String String)
    (completed : List WebSearchItem)
    (h : ∀ it ∈ completed, search searcher it = none) :
    perform_searches searcher completed = [] := by
  induction completed with
  | nil => rfl
  | cons a t ih =>
    have ha := h a (List.mem_cons_self a t)
    have ht : ∀ it ∈ t, search searcher it = none :=
      fun it hit => h it (List.mem_cons_of_mem a hit)
    have h2 := ih ht
    simp [perform_searches, List.filterMap_cons, ha] at h2 ⊢
    exact h2

end DeepResearch

namespace DeepResearch

/-! Claim C1. -/

/-- Claim C1: for every batch of N work items of which M fail and N - M
succeed, the aggregated result list returned by `perform_searches` has
exactly length N - M, under every completion order of the batch, for every
0 ≤ M ≤ N, including M = N (empty list, not an error) and M = 0. -/
theorem perform_searches_length (searcher : String → Except String String)
    (plan : WebSearchPlan) (completed : List WebSearchItem) (N M : Nat)
    (hperm : completed.Perm plan.searches)
    (hN : plan.searches.length = N)
    (hM : plan.searches.countP (fun it => (search searcher it).isNone) = M) :
    (perform_searches searcher completed).length = N - M := by
  have h1 : (perform_searches searcher completed).length
      = completed.countP (fun it => (search searcher it).isSome) := by
    simp only [perform_searches, length_filterMap_id, List.countP_map]
    rfl
  have h2 : completed.countP (fun it => (search searcher it).isSome)
      = plan.searches.countP (fun it => (search searcher it).isSome) :=
    hperm.countP_eq _
  have h3 := List.length_eq_countP_add_countP
    (fun it => (search searcher it).isSome) plan.searches
  have h4 : plan.searches.countP
        (fun it => decide (¬ (search searcher it).isSome = true))
      = plan.searches.countP (fun it => (search searcher it).isNone) := by
    apply List.countP_congr
    intro a _
    cases search searcher a <;> simp
  omega

/-- Claim C1 witness: three items of which exactly the middle one fails,
consumed in reversed completion order, give a result list of length 2. -/
theorem perform_searches_length_witness :
    (perform_searches mixedSearcher [itemC, itemB, itemA]).length = 3 - 1 :=
  perform_searches_length mixedSearcher planABC [itemC, itemB, itemA] 3 1
    (by decide) (by decide) (by decide)

/-! Claim C2. -/

/-- Claim C2: for every work item, if the external unit-of-work call raises
an exception, `search` returns the failure value `none` instead of
propagating it: the caller of `search` never observes a unit-level
exception. -/
theorem search_exception_to_none (searcher : String → Except String String)
    (item : WebSearchItem) (e : String)
    (h : searcher (searchInput item) = Except.error e) :
    search searcher item = none := by
  simp [search, h]

/-- Claim C2 witness: a searcher oracle that always raises makes `search`
return `none` on a concrete item. -/
theorem search_exception_to_none_witness :
    search failSearcher itemA = none :=
  search_exception_to_none failSearcher itemA "search boom" rfl

/-! Claim C8. -/

/-- Claim C8: for every batch, the successful payloads returned by the
aggregator under two completion orders that are permutations of one
another are themselves permutations of one another, hence the same set
(and even the same multiset), though not necessarily the same order. -/
theorem perform_searches_order_independent
    (searcher : String → Except String String)
    (c1 c2 : List WebSearchItem) (h : c1.Perm c2) :
    (perform_searches searcher c1).Perm (perform_searches searcher c2) :=
  (h.map (search searcher)).filterMap id

/-- Claim C8 witness: the same three-item batch consumed in two different
completion orders yields permuted (equal as sets) aggregate output. -/
theorem perform_searches_order_independent_witness :
    (perform_searches mixedSearcher [itemA, itemB, itemC]).Perm
      (perform_searches mixedSearcher [itemC, itemB, itemA]) :=
  perform_searches_order_independent mixedSearcher
    [itemA, itemB, itemC] [itemC, itemB, itemA] (by decide)

/-! Claim C9. -/

/-- Claim C9 counterexample: `plan_searches` does not fail loudly on an
empty plan; with an external planner returning a well-typed plan whose
list of searches is empty, `plan_searches` returns that empty plan
successfully instead of raising. -/
theorem plan_searches_empty_plan_counterexample :
    plan_searches (fun _ => Except.ok (WebSearchPlan.mk [])) "q"
      = Except.ok (WebSearchPlan.mk []) ∧
    (WebSearchPlan.mk []).searches.length = 0 :=
  ⟨rfl, rfl⟩

/-- Claim C9 (amended): the Planning call boundary fails loudly whenever
the external planning call raises (`plan_searches` propagates the
exception unchanged), but it performs no validation of the returned plan:
a well-typed plan with an empty list of searches is returned as-is. -/
theorem plan_searches_propagates_error
    (planner : String → Except String WebSearchPlan) (query e : String)
    (h : planner ("Query: " ++ query) = Except.error e) :
    plan_searches planner query = Except.error e := by
  simpa [plan_searches] using h

/-- Claim C9 witness: a planner oracle that raises makes `plan_searches`
raise the same exception. -/
theorem plan_searches_propagates_error_witness :
    plan_searches (fun _ => Except.error "planner boom") "q"
      = Except.error "planner boom" :=
  plan_searches_propagates_error (fun _ => Except.error "planner boom")
    "q" "planner boom" rfl

/-! Claim C10. -/

/-- Claim C10: whenever the SendGrid post call returns without raising,
`send_mail` returns the dictionary `{"status": "success"}` unconditionally,
for every response value, without inspecting it: a non-exception delivery
failure reported in the HTTP response is still reported as success. -/
theorem send_mail_ignores_response
    (post : MailData → Except String HttpResponse)
    (subject html_body : String) (r : HttpResponse)
    (h : post (buildMail subject html_body) = Except.ok r) :
    send_mail post subject html_body = Except.ok [("status", "success")] := by
  simp [send_mail, h]

/-- Claim C10 witness: a post returning an HTTP 500 response (a delivery
failure that does not raise) is still reported as success. -/
theorem send_mail_ignores_response_witness :
    send_mail (fun _ => Except.ok (HttpResponse.mk 500 "rejected"))
      "subject" "body" = Except.ok [("status", "success")] :=
  send_mail_ignores_response (fun _ => Except.ok (HttpResponse.mk 500 "rejected"))
    "subject" "body" (HttpResponse.mk 500 "rejected") rfl

end DeepResearch

namespace DeepResearch

/-! Claim C3. -/

/-- Claim C3: join completeness: in every pipeline run whose planning call
returns a plan, the trace contains the Synthesizing call (`write_report`),
and every one of the fan-out unit-of-work calls — exactly one per
submitted work item — occurs strictly before it; no unit-of-work call
occurs after it, so the scheduler waited for all items (success or
failure) before returning and no straggler is cancelled. -/
theorem run_join_completeness (env : Env)
    (reorder : List WebSearchItem → List WebSearchItem)
    (query traceId : String) (plan : WebSearchPlan)
    (hplan : env.planner ("Query: " ++ query) = Except.ok plan)
    (hperm : (reorder plan.searches).Perm plan.searches) :
    ∃ pre post,
      runTr env reorder query traceId
        = pre ++ TraceEv.callEv (ExtCall.writeCall query
            (perform_searches env.searcher (reorder plan.searches))) :: post
      ∧ pre.countP isSearchCall = plan.searches.length
      ∧ post.countP isSearchCall = 0 := by
  refine ⟨TraceEv.yieldEv (traceUrl traceId) ::
    TraceEv.callEv (ExtCall.planCall ("Query: " ++ query)) ::
    TraceEv.yieldEv "Searches planned, starting to search..." ::
    searchCallEvents (reorder plan.searches) ++
    [TraceEv.yieldEv "Searches complete, writing report..."],
    afterWrite env query (perform_searches env.searcher (reorder plan.searches)),
    ?_, ?_, ?_⟩
  · simp [runTr, plan_searches, hplan]
  · simp [List.countP_append, List.countP_cons, isSearchCall,
      searchCallEvents_countP_isSearchCall, hperm.length_eq]
  · exact afterWrite_countP_isSearchCall env query _

/-- Claim C3 witness: a concrete all-success run with reversed completion
order exhibits the decomposition with all three search calls before the
write call and none after it. -/
theorem run_join_completeness_witness :
    ∃ pre post,
      runTr envOk (fun l => l.reverse) "q" "t"
        = pre ++ TraceEv.callEv (ExtCall.writeCall "q"
            (perform_searches envOk.searcher planABC.searches.reverse)) :: post
      ∧ pre.countP isSearchCall = planABC.searches.length
      ∧ post.countP isSearchCall = 0 :=
  run_join_completeness envOk (fun l => l.reverse) "q" "t" planABC rfl
    (planABC.searches.reverse_perm)

/-! Claim C4. -/

/-- Claim C4: for every run of the pipeline generator that completes
without an exception (the planning, synthesis and notification calls all
return), the final element yielded by the progress stream equals the
markdown report of the artifact, no element is yielded after it, and the
trace contains no exception event. -/
theorem run_final_yield_is_markdown (env : Env)
    (reorder : List WebSearchItem → List WebSearchItem)
    (query traceId : String) (plan : WebSearchPlan) (report : ReportData)
    (hplan : env.planner ("Query: " ++ query) = Except.ok plan)
    (hwrite : env.writer query
      (perform_searches env.searcher (reorder plan.searches)) = Except.ok report)
    (hemail : env.emailer report.markdown_report = Except.ok ()) :
    (runYields env reorder query traceId).getLast? = some report.markdown_report ∧
    (runTr env reorder query traceId).countP isRaise = 0 := by
  have hy : runYields env reorder query traceId
      = [traceUrl traceId, "Searches planned, starting to search...",
         "Searches complete, writing report...",
         "Report written, sending email...",
         "Email sent, research complete", report.markdown_report] := by
    simp [runYields, runTr, plan_searches, hplan, afterWrite, hwrite, hemail,
      List.filterMap_append, List.filterMap_cons,
      searchCallEvents_filterMap_yieldedOf, yieldedOf]
  constructor
  · rw [hy]; rfl
  · simp [runTr, plan_searches, hplan, afterWrite, hwrite, hemail,
      List.countP_append, List.countP_cons, isRaise,
      searchCallEvents_countP_isRaise]

/-- Claim C4 witness: in the all-success environment the last streamed
element is the markdown report and no exception event occurs. -/
theorem run_final_yield_is_markdown_witness :
    (runYields envOk (fun l => l) "q" "t").getLast?
      = some reportOk.markdown_report ∧
    (runTr envOk (fun l => l) "q" "t").countP isRaise = 0 :=
  run_final_yield_is_markdown envOk (fun l => l) "q" "t" planABC reportOk
    rfl rfl rfl

/-! Claim C5. -/

/-- Claim C5 counterexample: with a planning call that raises, the progress
stream yields nothing after the initial trace URL — in particular it does
not emit any distinct error event before closing, refuting the claim; the
exception propagates to the caller instead (one raise event in the trace). -/
theorem run_planning_failure_counterexample :
    runYields envPlanFail (fun l => l) "q" "t" = [traceUrl "t"] ∧
    (runTr envPlanFail (fun l => l) "q" "t").countP isRaise = 1 := by
  constructor <;> rfl

/-- Claim C5 (amended): if the Planning external call raises, the pipeline
aborts before the Searching stage starts — no unit-of-work call is issued
and no artifact is produced — but the progress stream does not emit a
distinct error event: the exception propagates to the caller and the
stream closes with only the initial trace URL having been yielded. -/
theorem run_planning_failure_aborts (env : Env)
    (reorder : List WebSearchItem → List WebSearchItem)
    (query traceId e : String)
    (h : env.planner ("Query: " ++ query) = Except.error e) :
    runTr env reorder query traceId
      = [TraceEv.yieldEv (traceUrl traceId),
         TraceEv.callEv (ExtCall.planCall ("Query: " ++ query)),
         TraceEv.raiseEv e] := by
  simp [runTr, plan_searches, h]

/-- Claim C5 witness: the concrete environment whose planner raises
produces exactly the three-event aborted trace. -/
theorem run_planning_failure_aborts_witness :
    runTr envPlanFail (fun l => l) "q" "t"
      = [TraceEv.yieldEv (traceUrl "t"),
         TraceEv.callEv (ExtCall.planCall ("Query: " ++ "q")),
         TraceEv.raiseEv "planner boom"] :=
  run_planning_failure_aborts envPlanFail (fun l => l) "q" "t"
    "planner boom" rfl

/-! Claim C6. -/

/-- Claim C6: if every work item of the batch fails, the aggregate passed
onward is the empty list, this is not treated as an error, the Synthesizing
stage is still invoked with that empty list, and the pipeline runs to
completion: the trace ends with the notification call, the closing status
yield and the markdown report, with no exception event anywhere. -/
theorem run_all_fail_still_synthesizes (env : Env)
    (reorder : List WebSearchItem → List WebSearchItem)
    (query traceId : String) (plan : WebSearchPlan) (report : ReportData)
    (hplan : env.planner ("Query: " ++ query) = Except.ok plan)
    (hperm : (reorder plan.searches).Perm plan.searches)
    (hfail : ∀ it ∈ plan.searches, search env.searcher it = none)
    (hwrite : env.writer query [] = Except.ok report)
    (hemail : env.emailer report.markdown_report = Except.ok ()) :
    perform_searches env.searcher (reorder plan.searches) = [] ∧
    runTr env reorder query traceId
      = TraceEv.yieldEv (traceUrl traceId) ::
        TraceEv.callEv (ExtCall.planCall ("Query: " ++ query)) ::
        TraceEv.yieldEv "Searches planned, starting to search..." ::
        searchCallEvents (reorder plan.searches) ++
        TraceEv.yieldEv "Searches complete, writing report..." ::
        TraceEv.callEv (ExtCall.writeCall query []) ::
        TraceEv.yieldEv "Report written, sending email..." ::
        TraceEv.callEv (ExtCall.emailCall report.markdown_report) ::
        [TraceEv.yieldEv "Email sent, research complete",
         TraceEv.yieldEv report.markdown_report] := by
  have hres : perform_searches env.searcher (reorder plan.searches) = [] :=
    perform_searches_all_none env.searcher (reorder plan.searches)
      (fun it hit => hfail it (hperm.mem_iff.mp hit))
  refine ⟨hres, ?_⟩
  simp [runTr, plan_searches, hplan, hres, afterWrite, hwrite, hemail]

/-- Claim C6 witness: the concrete three-item batch in which every search
raises still reaches the writer with an empty aggregate and completes. -/
theorem run_all_fail_still_synthesizes_witness :
    perform_searches envAllSearchFail.searcher planABC.searches = [] ∧
    runTr envAllSearchFail (fun l => l) "q" "t"
      = TraceEv.yieldEv (traceUrl "t") ::
        TraceEv.callEv (ExtCall.planCall ("Query: " ++ "q")) ::
        TraceEv.yieldEv "Searches planned, starting to search..." ::
        searchCallEvents planABC.searches ++
        TraceEv.yieldEv "Searches complete, writing report..." ::
        TraceEv.callEv (ExtCall.writeCall "q" []) ::
        TraceEv.yieldEv "Report written, sending email..." ::
        TraceEv.callEv (ExtCall.emailCall reportOk.markdown_report) ::
        [TraceEv.yieldEv "Email sent, research complete",
         TraceEv.yieldEv reportOk.markdown_report] :=
  run_all_fail_still_synthesizes envAllSearchFail (fun l => l) "q" "t"
    planABC reportOk rfl (List.Perm.refl planABC.searches) (by decide) rfl rfl

/-! Claim C7. -/

/-- Claim C7 counterexample: in a concrete run whose notification call
raises, the notification call is attempted, yet the markdown report never
appears on the progress stream: the artifact had not been emitted when the
notification was attempted, so the notification failure does prevent the
caller from receiving the artifact, refuting the claim. -/
theorem run_email_failure_counterexample :
    TraceEv.callEv (ExtCall.emailCall reportOk.markdown_report)
      ∈ runTr envEmailFail (fun l => l) "q" "t" ∧
    reportOk.markdown_report ∉ runYields envEmailFail (fun l => l) "q" "t" := by
  decide

/-- Claim C7 (amended): the markdown report is yielded only after the
Notifying call returns: when the notification call is attempted, the
long-form text has not yet been emitted on the progress stream, and if
that call raises, the trace ends with the propagated exception and the
stream closes having yielded only the four status strings — the artifact
is never delivered to the caller. -/
theorem run_email_failure_loses_artifact (env : Env)
    (reorder : List WebSearchItem → List WebSearchItem)
    (query traceId e : String) (plan : WebSearchPlan) (report : ReportData)
    (hplan : env.planner ("Query: " ++ query) = Except.ok plan)
    (hwrite : env.writer query
      (perform_searches env.searcher (reorder plan.searches)) = Except.ok report)
    (hemail : env.emailer report.markdown_report = Except.error e) :
    runYields env reorder query traceId
      = [traceUrl traceId, "Searches planned, starting to search...",
         "Searches complete, writing report...",
         "Report written, sending email..."] ∧
    TraceEv.callEv (ExtCall.emailCall report.markdown_report)
      ∈ runTr env reorder query traceId ∧
    (runTr env reorder query traceId).getLast? = some (TraceEv.raiseEv e) := by
  have ht : runTr env reorder query traceId
      = (TraceEv.yieldEv (traceUrl traceId) ::
         TraceEv.callEv (ExtCall.planCall ("Query: " ++ query)) ::
         TraceEv.yieldEv "Searches planned, starting to search..." ::
         searchCallEvents (reorder plan.searches)) ++
        [TraceEv.yieldEv "Searches complete, writing report...",
         TraceEv.callEv (ExtCall.writeCall query
           (perform_searches env.searcher (reorder plan.searches))),
         TraceEv.yieldEv "Report written, sending email...",
         TraceEv.callEv (ExtCall.emailCall report.markdown_report),
         TraceEv.raiseEv e] := by
    simp [runTr, plan_searches, hplan, afterWrite, hwrite, hemail]
  refine ⟨?_, ?_, ?_⟩
  · rw [runYields, ht]
    simp [List.filterMap_append, List.filterMap_cons,
      searchCallEvents_filterMap_yieldedOf, yieldedOf]
  · rw [ht]
    simp
  · rw [ht, List.getLast?_append_of_ne_nil]
    · rfl
    · simp

/-- Claim C7 witness for the amended statement: the concrete environment
whose notification call raises yields only the four status strings and
ends in the propagated exception. -/
theorem run_email_failure_loses_artifact_witness :
    runYields envEmailFail (fun l => l) "q" "t"
      = [traceUrl "t", "Searches planned, starting to search...",
         "Searches complete, writing report...",
         "Report written, sending email..."] ∧
    TraceEv.callEv (ExtCall.emailCall reportOk.markdown_report)
      ∈ runTr envEmailFail (fun l => l) "q" "t" ∧
    (runTr envEmailFail (fun l => l) "q" "t").getLast?
      = some (TraceEv.raiseEv "sendgrid boom") :=
  run_email_failure_loses_artifact envEmailFail (fun l => l) "q" "t"
    "sendgrid boom" planABC reportOk rfl rfl rfl

end DeepResearch
